import Mathlib

/-!
Verification of the service-portal scheduling client (Angular front end of
`common-configurations`) and of the spec-level booking engine it talks to.

The embedding follows the TypeScript sources:
* `frappe-api.service.ts` — request/header construction (`getAuthHeaders`,
  `callMethod`, `createDoc`, resource posts);
* `state.service.ts` — the signal store, its localStorage persistence
  (`loadPersistedState`, `clearUserContact`);
* `meet-scheduling.service.ts` (legacy two-step booking) and the
  `meet_scheduling` service variant exposing `create_and_confirm_appointment`;
* `otp.service.ts` / `portal.service.ts` — the write-endpoint argument
  builders (honeypot field);
* `otp-verification.component.ts` — OTP send/verify/resend handlers and the
  60-second resend cooldown;
* `meet-scheduling-tool.component.ts` — calendar state (`availableSlots`,
  `availabilityMap`) and `bookAppointment`.

The server-side booking engine (`meet_scheduling.api`) is not part of the
repository; where a claim is decided by it, a `Modelled from the spec:`
definition follows the specification text (§4.1–§4.2).

TypeScript truthiness of optional strings (empty string is falsy) is made
explicit through `optTruthy`.
-/

namespace ServicePortal

/-- TS truthiness for an optional string value: `null`/`undefined` and the
empty string are falsy, every other string is truthy. -/
def optTruthy : Option String → Bool
  | none => false
  | some s => !(s == "")

/-- A key/value argument list as serialized into a request body or query. -/
abbrev Args := List (String × String)

/-- Look a field up in an argument list (first occurrence wins). -/
def argsLookup (args : Args) (key : String) : Option String :=
  match args with
  | [] => none
  | (k, v) :: rest => if k = key then some v else argsLookup rest key

/-- JS object-spread override: `\x7b...data, k: v\x7d` removes any previous
binding of `k` and binds it to `v`. -/
def setField (args : Args) (k v : String) : Args :=
  (args.filter (fun p => p.1 ≠ k)) ++ [(k, v)]

/-- An HTTP request issued through `FrappeApiService`. -/
inductive Request where
  /-- `callMethod(methodPath, args, useGet)` — an RPC-style
  `/api/method/...` call. -/
  | callMethod (method : String) (args : Args) (useGet : Bool)
  /-- `createDoc(doctype, data)` — POST `/api/resource/{doctype}`. -/
  | createDoc (doctype : String) (args : Args)
  /-- a POST to `/api/resource/{doctype}/{name}` (submit/cancel by
  `docstatus`). -/
  | postResource (doctype : String) (name : String) (args : Args)
  deriving DecidableEq, Repr

/-- The argument list carried by a request. -/
def Request.args : Request → Args
  | .callMethod _ a _ => a
  | .createDoc _ a => a
  | .postResource _ _ a => a

/-- The method path (or resource path) a request is addressed to. -/
def Request.target : Request → String
  | .callMethod m _ _ => m
  | .createDoc d _ => d
  | .postResource d n _ => d ++ "/" ++ n

/- ======================================================================
   FrappeApiService.getAuthHeaders  (frappe-api.service.ts:81-106)
   ====================================================================== -/

/-- `authorizationMode` of `FrappeConfig`. -/
inductive AuthMode where
  | apiToken
  | csrfToken
  deriving DecidableEq, Repr

/-- `FrappeConfig` (frappe-api.service.ts:20-24). -/
structure FrappeConfig where
  authorizationMode : AuthMode
  token : Option String
  userContactToken : Option String
  deriving DecidableEq, Repr

/-- Header name for User Contact authentication
(`USER_CONTACT_AUTH_HEADER`, frappe-api.service.ts:17). -/
def USER_CONTACT_AUTH_HEADER : String := "X-User-Contact-Token"

/-- `getAuthHeaders` (frappe-api.service.ts:81-106): base content headers;
then either `Authorization: Basic ...` (api-token mode with a token) or the
CSRF header when a CSRF token is available; finally the User Contact token
header when that token is set. `csrf` is the value `getCsrfToken()` finds. -/
def getAuthHeaders (config : FrappeConfig) (csrf : String) : List (String × String) :=
  let headers := [("Content-Type", "application/json"), ("Accept", "application/json")]
  let headers :=
    if config.authorizationMode = AuthMode.apiToken ∧ optTruthy config.token then
      headers ++ [("Authorization", "Basic " ++ config.token.getD "")]
    else if csrf ≠ "" then
      headers ++ [("X-Frappe-CSRF-Token", csrf)]
    else
      headers
  if optTruthy config.userContactToken then
    headers ++ [(USER_CONTACT_AUTH_HEADER, config.userContactToken.getD "")]
  else
    headers

/- ======================================================================
   StateService  (state.service.ts)
   ====================================================================== -/

/-- A Frappe `User` as used by the state service (decoded value). -/
structure User where
  name : String
  full_name : String
  deriving DecidableEq, Repr

/-- A `Service Portal` document as used by the state service. -/
structure ServicePortalDoc where
  portal_name : String
  deriving DecidableEq, Repr

/-- A `User Contact` (guest identity) as used by the state service. -/
structure UserContact where
  name : String
  deriving DecidableEq, Repr

namespace STORAGE_KEYS

/-- `STORAGE_KEYS.currentUser` (state.service.ts:14). -/
def currentUser : String := "sp_current_user"

/-- `STORAGE_KEYS.selectedPortal` (state.service.ts:15). -/
def selectedPortal : String := "sp_selected_portal"

/-- `STORAGE_KEYS.userContact` (state.service.ts:16). -/
def userContact : String := "sp_user_contact"

/-- `STORAGE_KEYS.authToken` (state.service.ts:17). -/
def authToken : String := "sp_auth_token"

end STORAGE_KEYS

/-- Browser localStorage: a partial map from keys to stored strings. -/
def Storage := String → Option String

/-- `localStorage.removeItem`. -/
def removeItem (σ : Storage) (key : String) : Storage :=
  fun k => if k = key then none else σ k

/-- The signal state of `StateService` together with the backing
localStorage. -/
structure StateState where
  currentUser : Option User
  isAuthenticated : Bool
  selectedPortal : Option ServicePortalDoc
  userContact : Option UserContact
  authToken : Option String
  storage : Storage

/-- `isUserContactAuthenticated` (state.service.ts:66-68): the user-contact
signal and the auth-token signal are both non-null. -/
def isUserContactAuthenticated (s : StateState) : Bool :=
  s.userContact.isSome && s.authToken.isSome

/-- `clearUserContact` (state.service.ts:193-198): null both signals and
remove the two backing storage keys. -/
def clearUserContact (s : StateState) : StateState :=
  { s with
    userContact := none
    authToken := none
    storage :=
      removeItem (removeItem s.storage STORAGE_KEYS.userContact) STORAGE_KEYS.authToken }

/-- The `JSON.parse ... as T` casts of `loadPersistedState`, abstracted as
decoding functions (the parse result is trusted unconditionally). -/
structure Decoders where
  decodeUser : String → User
  decodePortal : String → ServicePortalDoc
  decodeContact : String → UserContact

/-- `loadPersistedState` (state.service.ts:247-281): each signal is restored
directly from its localStorage key; a stored (truthy) user marks the session
authenticated; no server request is involved. The `catch` branch (malformed
JSON) is not modelled — decoding is total here. -/
def loadPersistedState (dec : Decoders) (σ : Storage) : StateState :=
  let currentUser :=
    match σ STORAGE_KEYS.currentUser with
    | some j => if j = "" then none else some (dec.decodeUser j)
    | none => none
  let selectedPortal :=
    match σ STORAGE_KEYS.selectedPortal with
    | some j => if j = "" then none else some (dec.decodePortal j)
    | none => none
  let userContact :=
    match σ STORAGE_KEYS.userContact with
    | some j => if j = "" then none else some (dec.decodeContact j)
    | none => none
  let authToken :=
    match σ STORAGE_KEYS.authToken with
    | some t => if t = "" then none else some t
    | none => none
  { currentUser := currentUser
    isAuthenticated := currentUser.isSome
    selectedPortal := selectedPortal
    userContact := userContact
    authToken := authToken
    storage := σ }

/-- The only HTTP request issued while the application boots: `App.ngOnInit`
calls `fetchCsrfToken` (frappe-api.service.ts:139-163). The constructors of
`StateService` (`loadPersistedState`) and `FrappeApiService` (`loadConfig`)
only read localStorage. -/
def startupRequests : List Request :=
  [Request.callMethod "common_configurations.api.auth.get_csrf_token" [] true]

/-- Whether a request carries the string `s` anywhere (target or argument
values): a token-validation call for token `s` would have to. -/
def requestMentions (r : Request) (s : String) : Bool :=
  (r.target == s) || (r.args.any (fun p => p.2 == s))

/- ======================================================================
   Write-endpoint request builders
   (meet_scheduling service, otp.service.ts, portal.service.ts)
   ====================================================================== -/

/-- API path for the meet_scheduling appointments domain. -/
def API_APPOINTMENTS : String := "meet_scheduling.api.appointments"

/-- API path for the OTP domain (`API_OTP`, otp.service.ts). -/
def API_OTP : String := "common_configurations.api.otp"

/-- `createAndConfirmAppointment` request: one POST RPC with an always-empty
honeypot field; `appointment_context` is serialized only when passed. -/
def createAndConfirmAppointmentRequest (calendarResource userContact startDatetime endDatetime : String)
    (appointmentContext : Option String) : Request :=
  Request.callMethod (API_APPOINTMENTS ++ ".create_and_confirm_appointment")
    ([("calendar_resource", calendarResource),
      ("user_contact", userContact),
      ("start_datetime", startDatetime),
      ("end_datetime", endDatetime)] ++
     (match appointmentContext with
      | some c => [("appointment_context", c)]
      | none => []) ++
     [("honeypot", "")]) false

/-- `cancelAppointment` request (`cancel_or_delete_appointment`): the
argument object carries only `appointment_name` — no honeypot field. -/
def cancelOrDeleteAppointmentRequest (appointmentName : String) : Request :=
  Request.callMethod (API_APPOINTMENTS ++ ".cancel_or_delete_appointment")
    [("appointment_name", appointmentName)] false

/-- `cancelMyAppointment` request (`cancel_my_appointment`). -/
def cancelMyAppointmentRequest (appointmentName : String) : Request :=
  Request.callMethod (API_APPOINTMENTS ++ ".cancel_my_appointment")
    [("appointment_name", appointmentName), ("honeypot", "")] false

/-- `requestOtp` request (otp.service.ts). -/
def requestOtpRequest (document channel : String) : Request :=
  Request.callMethod (API_OTP ++ ".request_otp")
    [("document", document), ("channel", channel), ("honeypot", "")] false

/-- `verifyOtp` request (otp.service.ts). -/
def verifyOtpRequest (document otpCode : String) : Request :=
  Request.callMethod (API_OTP ++ ".verify_otp")
    [("document", document), ("otp_code", otpCode), ("honeypot", "")] false

/-- `requestRegistrationOtp` request; `dataJson` is `JSON.stringify(formData)`. -/
def requestRegistrationOtpRequest (dataJson channel : String) : Request :=
  Request.callMethod (API_OTP ++ ".request_registration_otp")
    [("data", dataJson), ("channel", channel), ("honeypot", "")] false

/-- `verifyRegistrationOtp` request (otp.service.ts / part of the OTP
service variant with registration support). -/
def verifyRegistrationOtpRequest (phoneNumber otpCode : String) : Request :=
  Request.callMethod (API_OTP ++ ".verify_registration_otp")
    [("phone_number", phoneNumber), ("otp_code", otpCode), ("honeypot", "")] false

/-- `resendRegistrationOtp` request; the channel is optional. -/
def resendRegistrationOtpRequest (phoneNumber : String) (channel : Option String) : Request :=
  Request.callMethod (API_OTP ++ ".resend_registration_otp")
    ([("phone_number", phoneNumber)] ++
     (match channel with
      | some c => [("channel", c)]
      | none => []) ++
     [("honeypot", "")]) false

/-- `cancelRegistration` request. -/
def cancelRegistrationRequest (phoneNumber : String) : Request :=
  Request.callMethod (API_OTP ++ ".cancel_registration")
    [("phone_number", phoneNumber), ("honeypot", "")] false

/-- `createUserContact` request (portal.service.ts:39-44). -/
def createUserContactRequest (dataJson : String) : Request :=
  Request.callMethod "common_configurations.api.portal_api.create_user_contact"
    [("data", dataJson), ("honeypot", "")] false

/-- `updateUserContact` request (portal.service.ts). -/
def updateUserContactRequest (name dataJson : String) : Request :=
  Request.callMethod "common_configurations.api.portal_api.update_user_contact"
    [("name", name), ("data", dataJson), ("honeypot", "")] false

/- ======================================================================
   Booking flows of the scheduling tool component
   ====================================================================== -/

/-- A slot as returned by `get_available_slots`
(`AvailableSlot`, appointment.model.ts). `slotEnd` is the source field
named `end`. -/
structure AvailableSlot where
  start : String
  slotEnd : String
  is_available : Bool
  deriving DecidableEq, Repr

/-- Legacy `MeetSchedulingService.createAppointment(data)`
(meet-scheduling.service.ts:77-93): a document create whose payload is the
caller data with `status` forced to `Draft` and `docstatus` to `0`. -/
def createAppointmentRequest (data : Args) : Request :=
  Request.createDoc "Appointment" (setField (setField data "status" "Draft") "docstatus" "0")

/-- Legacy `MeetSchedulingService.submitAppointment(name)`
(meet-scheduling.service.ts:98-110): a second POST setting `docstatus = 1`. -/
def submitAppointmentRequest (appointmentName : String) : Request :=
  Request.postResource "Appointment" appointmentName [("docstatus", "1")]

/-- The happy-path request trace of the legacy
`MeetSchedulingToolComponent.bookAppointment`
(meet-scheduling-tool.component.ts:174-221): create the appointment as a
Draft, then — in the success callback — submit it with a second call.
`createdName` is the `name` the first call returned. -/
def bookAppointmentLegacyTrace (resource contactName : String) (slot : AvailableSlot)
    (createdName : String) : List Request :=
  [createAppointmentRequest
     [("calendar_resource", resource),
      ("user_contact", contactName),
      ("start_datetime", slot.start),
      ("end_datetime", slot.slotEnd),
      ("status", "Draft")],
   submitAppointmentRequest createdName]

/-- The request trace of the current
`MeetSchedulingToolComponent.bookAppointment`
(meet-scheduling-tool.component.ts:690-727): a single
`create_and_confirm_appointment` RPC (no context argument is passed). -/
def bookAppointmentTrace (resource contactName : String) (slot : AvailableSlot) : List Request :=
  [createAndConfirmAppointmentRequest resource contactName slot.start slot.slotEnd none]

/-- Whether a request is the atomic create-and-confirm RPC. -/
def isCreateAndConfirmRpc (r : Request) : Bool :=
  r.target == API_APPOINTMENTS ++ ".create_and_confirm_appointment"

/-- Whether a request creates an `Appointment` document in `Draft` status. -/
def isDraftCreate (r : Request) : Bool :=
  match r with
  | .createDoc d args => d == "Appointment" && (argsLookup args "status" == some "Draft")
  | _ => false

/- ======================================================================
   Requests sent outside FrappeApiService
   (my-cases-tool.component.ts, case-management-tool.component.ts,
    fetchCsrfToken in frappe-api.service.ts)
   ====================================================================== -/

/-- A request as actually sent on the wire: URL, query parameters, and the
header list the client code attaches to it. -/
structure HttpDispatch where
  url : String
  params : Args
  headers : List (String × String)
  deriving DecidableEq, Repr

/-- A GET issued through `FrappeApiService.get`
(frappe-api.service.ts:218-221): its headers are built by
`getAuthHeaders`. -/
def frappeGetDispatch (config : FrappeConfig) (csrf : String) (url : String)
    (params : Args) : HttpDispatch :=
  { url := url, params := params, headers := getAuthHeaders config csrf }

/-- `MyCasesToolComponent.loadCases` (my-cases-tool.component.ts:129-134):
a direct Angular `HttpClient` GET bypassing `FrappeApiService` — the code
passes only query params and attaches no headers, identifying the guest by
the `user_contact` query parameter instead of the token header. -/
def myCasesLoadCasesDispatch (contactName : String) : HttpDispatch :=
  { url := "/api/method/lex_app.api.case_log_api.get_user_cases"
    params := [("user_contact", contactName)]
    headers := [] }

/-- `MyCasesToolComponent.viewCaseDetail`
(my-cases-tool.component.ts:165-173): the same direct-GET pattern. -/
def myCasesCaseDetailDispatch (caseName contactName : String) : HttpDispatch :=
  { url := "/api/method/lex_app.api.case_log_api.get_case_detail"
    params := [("case_name", caseName), ("user_contact", contactName)]
    headers := [] }

/-- `CaseManagementToolComponent.loadCases`
(case-management-tool.component.ts:108-113). -/
def caseMgmtLoadCasesDispatch (contactName : String) : HttpDispatch :=
  { url := "/api/method/lex_app.lex_app.doctype.case_log.case_log.get_cases_by_client"
    params := [("user_contact", contactName)]
    headers := [] }

/-- `CaseManagementToolComponent.viewCaseDetail`
(case-management-tool.component.ts:131-133): a direct resource GET with no
headers at all. -/
def caseMgmtCaseDetailDispatch (caseName : String) : HttpDispatch :=
  { url := "/api/resource/Case Log/" ++ caseName
    params := []
    headers := [] }

/-- `fetchCsrfToken` (frappe-api.service.ts:139-163): a raw `fetch` whose
only header is `Accept`. -/
def fetchCsrfTokenDispatch : HttpDispatch :=
  { url := "/api/method/common_configurations.api.auth.get_csrf_token"
    params := []
    headers := [("Accept", "application/json")] }

/- ======================================================================
   OtpVerificationComponent  (otp-verification.component.ts)
   ====================================================================== -/

/-- `RegistrationOTPVerifyResponse` as consumed by the registration branch
of `verifyOtp` (otp-verification.component.ts:365-386): `success`, an
optional `auth_token`, an optional `user_contact` object. -/
structure RegistrationOTPVerifyResponse where
  success : Bool
  auth_token : Option String
  user_contact : Option UserContact
  deriving DecidableEq, Repr

/-- The component's user-visible outcome of a verification attempt: either
the `registrationVerified` event is emitted with the token and contact, or
an error message is shown and the user stays unregistered. -/
inductive RegVerifyOutcome where
  | emitted (auth_token : String) (user_contact : UserContact)
  | errorShown (message : String)
  deriving DecidableEq, Repr

/-- The error message the component shows on a failed verification. -/
def invalidCodeMessage : String := "Código inválido. Por favor intenta de nuevo."

/-- The registration branch of `OtpVerificationComponent.verifyOtp`
(otp-verification.component.ts:365-386): the result is emitted only when
`response.success && response.auth_token && response.user_contact` is
truthy (an empty-string token is falsy); otherwise the error signal is set. -/
def handleRegistrationVerifyResponse (r : RegistrationOTPVerifyResponse) : RegVerifyOutcome :=
  match r.success, r.auth_token, r.user_contact with
  | true, some t, some c =>
      if t = "" then .errorShown invalidCodeMessage else .emitted t c
  | _, _, _ => .errorShown invalidCodeMessage

/-- The cooldown-relevant state of `OtpVerificationComponent`. -/
structure OtpCompState where
  mode_registration : Bool
  document : String
  phoneNumber : String
  selectedChannel : String
  otpCode : String
  resendCooldown : Nat
  deriving DecidableEq, Repr

/-- Events driving the component's cooldown behaviour. -/
inductive OtpEvent where
  /-- one second elapsing in the `setInterval` callback
  (otp-verification.component.ts:454-462). -/
  | tick
  /-- a send (or resend) response arriving with `success = true`: the
  handler calls `startResendCooldown()`
  (otp-verification.component.ts:332-337 and 424-427). -/
  | sendSuccess
  /-- the user clicking resend (`resendOtp`,
  otp-verification.component.ts:412-442). -/
  | resendClick
  deriving DecidableEq, Repr

/-- One component step: the successor state and the requests issued.
`tick` is the interval body (decrement while positive); `sendSuccess` is
`startResendCooldown` setting the counter to 60; `resendClick` returns
immediately while the counter is positive, and otherwise clears the code
input and issues the mode-appropriate resend request. -/
def stepOtp (s : OtpCompState) : OtpEvent → OtpCompState × List Request
  | .tick =>
      (if 0 < s.resendCooldown then { s with resendCooldown := s.resendCooldown - 1 } else s, [])
  | .sendSuccess => ({ s with resendCooldown := 60 }, [])
  | .resendClick =>
      if 0 < s.resendCooldown then (s, [])
      else
        ({ s with otpCode := "" },
         if s.mode_registration then
           [resendRegistrationOtpRequest s.phoneNumber (some s.selectedChannel)]
         else
           [requestOtpRequest s.document s.selectedChannel])

/-- Run a sequence of component events. -/
def runOtp (s : OtpCompState) (evs : List OtpEvent) : OtpCompState :=
  evs.foldl (fun st e => (stepOtp st e).1) s

/-- The number of elapsed-second events in a trace. -/
def countTicks (evs : List OtpEvent) : Nat :=
  (evs.filter (fun e => e == OtpEvent.tick)).length

/- ======================================================================
   MeetSchedulingToolComponent calendar/slot state
   (meet-scheduling-tool.component.ts, current version)
   ====================================================================== -/

/-- `slot.start.split(' ')[0]` — the date part of a slot's start datetime
(meet-scheduling-tool.component.ts:435). -/
def dateOf (s : AvailableSlot) : String :=
  (s.start.splitOn " ").headD ""

/-- The per-day availability map: insertion-ordered association list, as
built by the `Map` in `loadCalendarMonth`. -/
abbrev AvailMap := List (String × List AvailableSlot)

/-- Insert a slot into its date group (create the group on first sight,
append afterwards), mirroring lines 434-440. -/
def addToMap (m : AvailMap) (d : String) (s : AvailableSlot) : AvailMap :=
  match m with
  | [] => [(d, [s])]
  | (k, l) :: rest => if k = d then (k, l ++ [s]) :: rest else (k, l) :: addToMap rest d s

/-- Group the available slots of a month response by date
(meet-scheduling-tool.component.ts:433-440), after the
`filter(s => s.is_available)` on line 434. -/
def groupSlots (slots : List AvailableSlot) : AvailMap :=
  slots.foldl (fun m s => addToMap m (dateOf s) s) []

/-- `map.get(day.dateStr) || []` (line 573). -/
def mapLookup (m : AvailMap) (d : String) : List AvailableSlot :=
  match m with
  | [] => []
  | (k, l) :: rest => if k = d then l else mapLookup rest d

/-- The slot-related state of the scheduling tool component. -/
structure SchedState where
  selectedDate : String
  availableSlots : List AvailableSlot
  selectedSlot : Option AvailableSlot
  availabilityMap : AvailMap
  deriving Repr

/-- Initial component state (signal initial values, lines 367-375). -/
def initSched : SchedState :=
  { selectedDate := ""
    availableSlots := []
    selectedSlot := none
    availabilityMap := [] }

/-- Events that mutate the component's slot state. -/
inductive SchedEvent where
  /-- a `get_available_slots` month response arriving in
  `loadCalendarMonth` (lines 430-447). -/
  | monthLoaded (slots : List AvailableSlot)
  /-- a `get_available_slots` single-day response arriving in
  `loadAvailableSlots` (lines 658-668). -/
  | daySlotsLoaded (slots : List AvailableSlot)
  /-- `onDateSelected` (lines 642-646). -/
  | dateSelected (date : String)
  /-- `onDaySelected` on a selectable calendar day (lines 564-575). -/
  | daySelected (date : String) (isCurrentMonth isPast hasAvailability : Bool)
  /-- `selectSlot` from the template, which offers the elements of
  `availableSlots` (lines 674-676); the index picks one of them. -/
  | slotClicked (i : Nat)
  /-- `clearSelection` (lines 580-584). -/
  | selectionCleared
  /-- the `createAndConfirmAppointment` success callback (lines 711-720). -/
  | bookSucceeded

/-- One step of the component's slot state. -/
def stepSched (s : SchedState) : SchedEvent → SchedState
  | .monthLoaded slots =>
      { s with availabilityMap := groupSlots (slots.filter (fun x => x.is_available)) }
  | .daySlotsLoaded slots =>
      { s with availableSlots := slots.filter (fun x => x.is_available) }
  | .dateSelected d =>
      { s with selectedDate := d, selectedSlot := none }
  | .daySelected d isCurrentMonth isPast hasAvailability =>
      if !isCurrentMonth || isPast || !hasAvailability then s
      else
        { s with
          selectedDate := d
          selectedSlot := none
          availableSlots := mapLookup s.availabilityMap d }
  | .slotClicked i =>
      match s.availableSlots[i]? with
      | some slot => { s with selectedSlot := some slot }
      | none => s
  | .selectionCleared =>
      { s with selectedDate := "", selectedSlot := none, availableSlots := [] }
  | .bookSucceeded =>
      { s with selectedSlot := none, selectedDate := "", availableSlots := [] }

/-- Run a sequence of component events from the initial state. -/
def runSched (evs : List SchedEvent) : SchedState :=
  evs.foldl stepSched initSched

/-- Every slot the component holds was reported available, and any selected
slot is one of them. -/
def SchedInv (s : SchedState) : Prop :=
  (∀ x ∈ s.availableSlots, x.is_available = true) ∧
  (∀ p ∈ s.availabilityMap, ∀ x ∈ p.2, x.is_available = true) ∧
  (∀ x, s.selectedSlot = some x → x.is_available = true)

/-- The requests `bookAppointment` issues: none without a selected slot,
otherwise the single create-and-confirm RPC for that slot. -/
def bookAppointmentRequests (s : SchedState) (resource contactName : String) : List Request :=
  match s.selectedSlot with
  | none => []
  | some slot => bookAppointmentTrace resource contactName slot

/- ======================================================================
   Booking Engine — Modelled from the spec
   ====================================================================== -/

/-- Appointment status (spec §3). -/
inductive ApptStatus where
  | draft
  | confirmed
  | cancelled
  | completed
  | noShow
  deriving DecidableEq, Repr

/-- Modelled from the spec: an `Appointment` record (§3). Times are
absolute minutes in the resource's timezone; `draftExpiresAt` is meaningful
only while the status is `draft`. The server-side Appointment store is not
in the repository. -/
structure SpecAppointment where
  id : String
  identityId : String
  startT : Nat
  endT : Nat
  status : ApptStatus
  draftExpiresAt : Nat
  deriving DecidableEq, Repr

/-- Modelled from the spec: a `WeeklySlot` of an `AvailabilityPlan` (§3):
weekday 0–6, a time range in minutes from midnight, a capacity. -/
structure WeeklySlot where
  weekday : Nat
  startTime : Nat
  endTime : Nat
  capacity : Nat
  deriving DecidableEq, Repr

/-- Modelled from the spec: an `AvailabilityPlan` (§3). -/
structure AvailabilityPlanSpec where
  slots : List WeeklySlot
  deriving DecidableEq, Repr

/-- Modelled from the spec: a `CalendarResource` (§3). -/
structure CalendarResourceSpec where
  active : Bool
  slotDurationMinutes : Nat
  plan : AvailabilityPlanSpec
  deriving DecidableEq, Repr

/-- The plan invariants of §3: each weekly slot has `startTime < endTime`
within one day and capacity ≥ 1, and slots for the same weekday do not
overlap. -/
def PlanWF (p : AvailabilityPlanSpec) : Prop :=
  (∀ ws ∈ p.slots, ws.startTime < ws.endTime ∧ ws.endTime ≤ 1440 ∧ 1 ≤ ws.capacity) ∧
  p.slots.Pairwise (fun a b =>
    a.weekday = b.weekday → (a.endTime ≤ b.startTime ∨ b.endTime ≤ a.startTime))

/-- Whether `(i, day, k)` names a candidate slot window of §4.1: the `i`-th
weekly slot matches the weekday of absolute day `day`, and the `k`-th
fixed-width window of duration `dur` fits inside its time range (a partial
trailing window is discarded). -/
def IsCandidate (r : CalendarResourceSpec) (i day k : Nat) : Prop :=
  match r.plan.slots[i]? with
  | some ws =>
      ws.weekday = day % 7 ∧
      ws.startTime + (k + 1) * r.slotDurationMinutes ≤ ws.endTime
  | none => False

/-- The half-open interval of candidate window `(i, day, k)` in absolute
minutes. -/
def candWindow (r : CalendarResourceSpec) (i day k : Nat) : Nat × Nat :=
  match r.plan.slots[i]? with
  | some ws =>
      (day * 1440 + ws.startTime + k * r.slotDurationMinutes,
       day * 1440 + ws.startTime + (k + 1) * r.slotDurationMinutes)
  | none => (0, 0)

/-- The capacity governing candidate windows of the `i`-th weekly slot. -/
def candCapacity (r : CalendarResourceSpec) (i : Nat) : Nat :=
  match r.plan.slots[i]? with
  | some ws => ws.capacity
  | none => 0

/-- Capacity counting of §4.1: an appointment consumes capacity while it is
`Confirmed`, or `Draft` and not yet expired at `now`. -/
def activeAt (now : Nat) (a : SpecAppointment) : Bool :=
  (a.status == ApptStatus.confirmed) ||
    ((a.status == ApptStatus.draft) && decide (now < a.draftExpiresAt))

/-- Half-open interval overlap of an appointment with `[lo, hi)` (§4.1). -/
def overlapsWindow (a : SpecAppointment) (lo hi : Nat) : Bool :=
  decide (a.startT < hi) && decide (lo < a.endT)

/-- The §4.1 booking count against one window: capacity-consuming
appointments in the store that overlap `[lo, hi)`. -/
def bookedCount (store : List SpecAppointment) (now lo hi : Nat) : Nat :=
  (store.filter (fun a => activeAt now a && overlapsWindow a lo hi)).length

/-- Errors of `createAndConfirm` (§4.2, §7). -/
inductive BookingError where
  | resourceInactive
  | invalidWindow
  | capacityExceeded
  deriving DecidableEq, Repr

/-- A `createAndConfirm` request: caller identity, requested window, and the
wall-clock instant the call executes (§4.2). -/
structure BookingRequest where
  id : String
  identityId : String
  startT : Nat
  endT : Nat
  now : Nat
  deriving DecidableEq, Repr

/-- Find the weekly slot whose candidate grid contains `[startT,
startT + dur)`: matching weekday, window start on the fixed-width grid, and
the whole window inside the slot's range. -/
def matchSlot (r : CalendarResourceSpec) (startT : Nat) : Option WeeklySlot :=
  let day := startT / 1440
  let tod := startT % 1440
  r.plan.slots.find? (fun ws =>
    (ws.weekday == day % 7) &&
    decide (ws.startTime ≤ tod) &&
    ((tod - ws.startTime) % r.slotDurationMinutes == 0) &&
    decide (tod + r.slotDurationMinutes ≤ ws.endTime))

/-- Modelled from the spec: the `Confirmed` appointment `createAndConfirm`
inserts for a request (§4.2, step 3). -/
def confirmedAppt (q : BookingRequest) : SpecAppointment :=
  { id := q.id, identityId := q.identityId, startT := q.startT,
    endT := q.endT, status := .confirmed, draftExpiresAt := 0 }

/-- Modelled from the spec: `createAndConfirm` (§4.2) — the server-side
booking engine behind the `create_and_confirm_appointment` RPC is not in
the repository. One logical transaction: (1) re-validate the window
(resource active, start in the future, start < end, duration equal to
`slotDurationMinutes`, window on the availability grid); (2) recompute the
§4.1 capacity for that window inside the same scope; (3) insert the
appointment directly as `Confirmed`. Concurrency is serialized by the
transaction/lock of §5, so concurrent calls are an interleaving of these
atomic steps. -/
def createAndConfirm (r : CalendarResourceSpec) (store : List SpecAppointment)
    (q : BookingRequest) : Except BookingError (SpecAppointment × List SpecAppointment) :=
  if r.active = false then .error .resourceInactive
  else if ¬ q.now < q.startT then .error .invalidWindow
  else if ¬ q.startT < q.endT then .error .invalidWindow
  else if q.endT ≠ q.startT + r.slotDurationMinutes then .error .invalidWindow
  else
    match matchSlot r q.startT with
    | none => .error .invalidWindow
    | some ws =>
        if bookedCount store q.now q.startT q.endT < ws.capacity then
          .ok (confirmedAppt q, confirmedAppt q :: store)
        else
          .error .capacityExceeded

/-- Apply a sequence of `createAndConfirm` calls; a failed call leaves the
store unchanged. -/
def runBookings (r : CalendarResourceSpec) (store : List SpecAppointment)
    (reqs : List BookingRequest) : List SpecAppointment :=
  reqs.foldl (fun st q =>
    match createAndConfirm r st q with
    | .ok (_, st') => st'
    | .error _ => st) store

/-- Errors of `cancelOrDelete` (§4.2, §7). -/
inductive CancelError where
  | notFound
  | forbidden
  deriving DecidableEq, Repr

/-- The `\x7baction, message\x7d` result of `cancelOrDelete`. -/
structure CancelResult where
  action : String
  message : String
  deriving DecidableEq, Repr

/-- Modelled from the spec: `cancelOrDelete` (§4.2) — the server side of the
`cancel_or_delete_appointment` RPC is not in the repository. Look the
appointment up, verify ownership, then: hard-delete a `Draft`, set a
`Confirmed` one to `Cancelled` keeping the record, and treat an
already-cancelled one as a no-op success. The spec leaves the
`Completed`/`NoShow` terminal states to the resource-facing API; they are
returned here as the same no-op success. -/
def cancelOrDelete (store : List SpecAppointment) (appointmentId byIdentityId : String) :
    Except CancelError (CancelResult × List SpecAppointment) :=
  match store.find? (fun a => a.id == appointmentId) with
  | none => .error .notFound
  | some a =>
      if a.identityId ≠ byIdentityId then .error .forbidden
      else
        match a.status with
        | .draft =>
            .ok ({ action := "deleted", message := "La cita fue eliminada." },
                 store.filter (fun b => b.id ≠ appointmentId))
        | .confirmed =>
            .ok ({ action := "cancelled", message := "La cita fue cancelada." },
                 store.map (fun b =>
                   if b.id = appointmentId then { b with status := .cancelled } else b))
        | _ =>
            .ok ({ action := "none", message := "La cita ya estaba cancelada." }, store)

/- ======================================================================
   Example values used by witnesses and counterexamples
   ====================================================================== -/

/-- A slot reported available by `get_available_slots`. -/
def exampleSlot : AvailableSlot :=
  { start := "2026-10-12 09:00:00", slotEnd := "2026-10-12 09:30:00", is_available := true }

/-- A localStorage snapshot holding a cached user contact and auth token. -/
def exampleStorage : Storage := fun k =>
  if k = STORAGE_KEYS.userContact then some "contact-json"
  else if k = STORAGE_KEYS.authToken then some "token-abc123"
  else if k = STORAGE_KEYS.currentUser then some "user-json"
  else none

/-- Trivial concrete decoders for the `JSON.parse` casts. -/
def exampleDecoders : Decoders :=
  { decodeUser := fun j => { name := j, full_name := j }
    decodePortal := fun j => { portal_name := j }
    decodeContact := fun j => { name := j } }

/-- A fully populated state-service state. -/
def exampleStateState : StateState :=
  { currentUser := some { name := "admin", full_name := "Admin" }
    isAuthenticated := true
    selectedPortal := some { portal_name := "portal-1" }
    userContact := some { name := "UC-001" }
    authToken := some "token-abc123"
    storage := exampleStorage }

/-- A config in CSRF mode with a User Contact token set. -/
def exampleConfigWithToken : FrappeConfig :=
  { authorizationMode := .csrfToken, token := none,
    userContactToken := some "token-abc123" }

/-- An OTP component state mid-cooldown. -/
def exampleOtpState : OtpCompState :=
  { mode_registration := false
    document := "12345678"
    phoneNumber := "3000000000"
    selectedChannel := "sms"
    otpCode := ""
    resendCooldown := 5 }

/- ======================================================================
   Theorems
   ====================================================================== -/

/-- C6 counterexample. While a guest token is set — the config holds a
truthy User Contact token, and a request built by `FrappeApiService` does
carry it — the my-cases and case-management tools issue direct HttpClient
requests, and `fetchCsrfToken` a raw fetch, none of which carries the
`X-User-Contact-Token` header; so not every API request the client issues
while a guest token is set carries the token header. -/
theorem C6_counterexample_token_missing_on_direct_requests :
    optTruthy exampleConfigWithToken.userContactToken = true ∧
    argsLookup (frappeGetDispatch exampleConfigWithToken "csrf-1"
        "/api/method/some.read" []).headers USER_CONTACT_AUTH_HEADER =
      some "token-abc123" ∧
    argsLookup (myCasesLoadCasesDispatch "UC-001").headers
      USER_CONTACT_AUTH_HEADER = none ∧
    argsLookup (myCasesCaseDetailDispatch "CASE-1" "UC-001").headers
      USER_CONTACT_AUTH_HEADER = none ∧
    argsLookup (caseMgmtLoadCasesDispatch "UC-001").headers
      USER_CONTACT_AUTH_HEADER = none ∧
    argsLookup (caseMgmtCaseDetailDispatch "CASE-1").headers
      USER_CONTACT_AUTH_HEADER = none ∧
    argsLookup fetchCsrfTokenDispatch.headers USER_CONTACT_AUTH_HEADER = none := by
  refine ⟨rfl, ?_, rfl, rfl, rfl, rfl, rfl⟩
  decide

/-- C6 (amended). Every request sent through `FrappeApiService` carries the
User Contact token in the dedicated `X-User-Contact-Token` header, appended
alongside — never replacing — the content and platform auth headers exactly
when a truthy guest token is set, and omits the header otherwise; but the
direct HttpClient requests of the my-cases and case-management tools and
the raw-fetch CSRF bootstrap never carry the header even while a guest
token is set, identifying the guest only by a `user_contact` query
parameter. -/
theorem C6_user_contact_header_on_frappe_requests_only :
    ∀ (config : FrappeConfig) (csrf url caseName contactName : String) (params : Args),
      (frappeGetDispatch config csrf url params).headers =
        getAuthHeaders { config with userContactToken := none } csrf ++
          (match config.userContactToken with
           | some t => if t = "" then [] else [(USER_CONTACT_AUTH_HEADER, t)]
           | none => []) ∧
      USER_CONTACT_AUTH_HEADER ∉
        (getAuthHeaders { config with userContactToken := none } csrf).map Prod.fst ∧
      argsLookup (myCasesLoadCasesDispatch contactName).headers
        USER_CONTACT_AUTH_HEADER = none ∧
      argsLookup (myCasesCaseDetailDispatch caseName contactName).headers
        USER_CONTACT_AUTH_HEADER = none ∧
      argsLookup (caseMgmtLoadCasesDispatch contactName).headers
        USER_CONTACT_AUTH_HEADER = none ∧
      argsLookup (caseMgmtCaseDetailDispatch caseName).headers
        USER_CONTACT_AUTH_HEADER = none ∧
      argsLookup fetchCsrfTokenDispatch.headers USER_CONTACT_AUTH_HEADER = none ∧
      argsLookup (myCasesLoadCasesDispatch contactName).params "user_contact" =
        some contactName := by
  intro config csrf url caseName contactName params
  refine ⟨?_, ?_, rfl, rfl, rfl, rfl, ?_, rfl⟩
  · show getAuthHeaders config csrf = _
    cases huc : config.userContactToken with
    | none => simp [getAuthHeaders, huc, optTruthy]
    | some t =>
        by_cases ht : t = ""
        · subst ht
          simp [getAuthHeaders, huc, optTruthy]
        · simp [getAuthHeaders, huc, optTruthy, ht]
  · unfold getAuthHeaders
    simp only [optTruthy, USER_CONTACT_AUTH_HEADER]
    split_ifs <;> simp_all
  · decide

/-- C6 witness: at a concrete config the guest header is exactly appended
to the headers built without the token, while the direct my-cases request
goes out without it. -/
theorem C6_user_contact_header_on_frappe_requests_only_witness :
    (frappeGetDispatch exampleConfigWithToken "csrf-1" "/api/method/some.read" []).headers =
      getAuthHeaders { exampleConfigWithToken with userContactToken := none } "csrf-1" ++
        [(USER_CONTACT_AUTH_HEADER, "token-abc123")] ∧
    argsLookup (myCasesLoadCasesDispatch "UC-001").headers
      USER_CONTACT_AUTH_HEADER = none := by
  have h := C6_user_contact_header_on_frappe_requests_only exampleConfigWithToken "csrf-1"
    "/api/method/some.read" "CASE-1" "UC-001" []
  exact ⟨by simpa [exampleConfigWithToken] using h.1, h.2.2.1⟩

/-- C10. `clearUserContact` nulls the user-contact and auth-token signals,
removes exactly the `sp_user_contact` and `sp_auth_token` storage keys,
leaves the current-user and selected-portal signals and every other storage
key untouched, and leaves `isUserContactAuthenticated` false. -/
theorem C10_clearUserContact_frame :
    ∀ s : StateState,
      (clearUserContact s).userContact = none ∧
      (clearUserContact s).authToken = none ∧
      (clearUserContact s).storage STORAGE_KEYS.userContact = none ∧
      (clearUserContact s).storage STORAGE_KEYS.authToken = none ∧
      (clearUserContact s).currentUser = s.currentUser ∧
      (clearUserContact s).selectedPortal = s.selectedPortal ∧
      (∀ k : String, k ≠ STORAGE_KEYS.userContact → k ≠ STORAGE_KEYS.authToken →
        (clearUserContact s).storage k = s.storage k) ∧
      isUserContactAuthenticated (clearUserContact s) = false := by
  intro s
  refine ⟨rfl, rfl, ?_, ?_, rfl, rfl, ?_, rfl⟩
  · simp [clearUserContact, removeItem, STORAGE_KEYS.userContact, STORAGE_KEYS.authToken]
  · simp [clearUserContact, removeItem]
  · intro k hk1 hk2
    simp [clearUserContact, removeItem, hk1, hk2]

/-- C10 witness: on a fully populated state the frame conditions hold at the
untouched `sp_current_user` key and authentication is cleared. -/
theorem C10_clearUserContact_frame_witness :
    (clearUserContact exampleStateState).storage STORAGE_KEYS.currentUser =
      exampleStateState.storage STORAGE_KEYS.currentUser ∧
    isUserContactAuthenticated (clearUserContact exampleStateState) = false :=
  ⟨(C10_clearUserContact_frame exampleStateState).2.2.2.2.2.2.1 STORAGE_KEYS.currentUser
      (by decide) (by decide),
   (C10_clearUserContact_frame exampleStateState).2.2.2.2.2.2.2⟩

/-- C8 counterexample. The `cancel_or_delete_appointment` write request —
the one both appointment-cancel flows send — carries no honeypot field at
all, refuting the claim that every portal write request includes an empty
honeypot field. -/
theorem C8_counterexample_cancel_has_no_honeypot :
    argsLookup (cancelOrDeleteAppointmentRequest "APT-0001").args "honeypot" = none ∧
    (cancelOrDeleteAppointmentRequest "APT-0001").target =
      "meet_scheduling.api.appointments.cancel_or_delete_appointment" := by
  constructor <;> rfl

/-- C8 (amended). Every write-request builder of the current service layer
— create-and-confirm, authenticated cancel, OTP request/verify, the four
registration-OTP calls, and user-contact create/update — sets the honeypot
field to the empty string; the `cancel_or_delete_appointment` request is
the exception and carries none. -/
theorem C8_honeypot_on_write_requests :
    ∀ a b c d e : String, ∀ ctx ch : Option String,
      argsLookup (createAndConfirmAppointmentRequest a b c d ctx).args "honeypot" = some "" ∧
      argsLookup (cancelMyAppointmentRequest a).args "honeypot" = some "" ∧
      argsLookup (requestOtpRequest a b).args "honeypot" = some "" ∧
      argsLookup (verifyOtpRequest a b).args "honeypot" = some "" ∧
      argsLookup (requestRegistrationOtpRequest a b).args "honeypot" = some "" ∧
      argsLookup (verifyRegistrationOtpRequest a b).args "honeypot" = some "" ∧
      argsLookup (resendRegistrationOtpRequest a ch).args "honeypot" = some "" ∧
      argsLookup (cancelRegistrationRequest a).args "honeypot" = some "" ∧
      argsLookup (createUserContactRequest e).args "honeypot" = some "" ∧
      argsLookup (updateUserContactRequest a e).args "honeypot" = some "" ∧
      argsLookup (cancelOrDeleteAppointmentRequest a).args "honeypot" = none := by
  intro a b c d e ctx ch
  refine ⟨?_, rfl, rfl, rfl, rfl, rfl, ?_, rfl, rfl, rfl, rfl⟩
  · cases ctx <;> rfl
  · cases ch <;> rfl

/-- C2 counterexample. The legacy booking flow of the scheduling tool
performs a booking as two separate requests — a document create with
`status = Draft` followed by a submit — and neither request is the atomic
create-and-confirm RPC, refuting the claim that the client never books via
the two-step Draft→Submit dance. -/
theorem C2_counterexample_legacy_two_step :
    (bookAppointmentLegacyTrace "CR-001" "UC-001" exampleSlot "APT-0001").length = 2 ∧
    (bookAppointmentLegacyTrace "CR-001" "UC-001" exampleSlot "APT-0001").any
      (fun r => isDraftCreate r) = true ∧
    (bookAppointmentLegacyTrace "CR-001" "UC-001" exampleSlot "APT-0001").all
      (fun r => !(isCreateAndConfirmRpc r)) = true := by
  refine ⟨rfl, rfl, rfl⟩

/-- C2 (amended). The current `bookAppointment` books through exactly one
request, the atomic `create_and_confirm_appointment` RPC (with its empty
honeypot), and never issues a Draft-creating document write; the
Draft→Submit two-step flow survives only in the legacy component/service
pair. -/
theorem C2_current_booking_atomic :
    ∀ (resource contactName : String) (slot : AvailableSlot),
      (bookAppointmentTrace resource contactName slot).length = 1 ∧
      (bookAppointmentTrace resource contactName slot).all
        (fun q => isCreateAndConfirmRpc q && !isDraftCreate q &&
          (argsLookup q.args "honeypot" == some "")) = true := by
  intro resource contactName slot
  exact ⟨rfl, rfl⟩

/-- C7 counterexample. With a cached contact and token in browser storage,
`loadPersistedState` marks the session authenticated immediately, while no
startup request (only the CSRF-token fetch runs at boot) so much as carries
the persisted token — there is no `validateToken` reconstruction, and the
cached identity is trusted as-is. -/
theorem C7_counterexample_cached_identity_trusted :
    isUserContactAuthenticated (loadPersistedState exampleDecoders exampleStorage) = true ∧
    (loadPersistedState exampleDecoders exampleStorage).userContact =
      some { name := "contact-json" } ∧
    startupRequests.all (fun r => !(requestMentions r "token-abc123")) = true := by
  refine ⟨?_, ?_, ?_⟩ <;> decide

/-- C7 (amended). On process start the session context is restored directly
from browser storage: the user-contact and auth-token signals take the
stored (truthy) values, `isUserContactAuthenticated` is true exactly when
both cached values are present, and the boot-time requests never carry the
persisted token — no server-side token validation takes place. -/
theorem C7_session_restored_from_storage :
    ∀ (dec : Decoders) (σ : Storage),
      isUserContactAuthenticated (loadPersistedState dec σ) =
        (optTruthy (σ STORAGE_KEYS.userContact) && optTruthy (σ STORAGE_KEYS.authToken)) ∧
      (loadPersistedState dec σ).authToken =
        (match σ STORAGE_KEYS.authToken with
         | some t => if t = "" then none else some t
         | none => none) ∧
      (σ STORAGE_KEYS.authToken ≠ some "common_configurations.api.auth.get_csrf_token" →
        startupRequests.all
          (fun r => !(requestMentions r ((σ STORAGE_KEYS.authToken).getD ""))) = true) := by
  intro dec σ
  refine ⟨?_, rfl, ?_⟩
  · unfold loadPersistedState isUserContactAuthenticated optTruthy
    cases hc : σ STORAGE_KEYS.userContact with
    | none =>
        cases ht : σ STORAGE_KEYS.authToken with
        | none => simp
        | some t => by_cases h : t = "" <;> simp [h]
    | some j =>
        by_cases hj : j = ""
        · cases ht : σ STORAGE_KEYS.authToken with
          | none => simp [hj]
          | some t => by_cases h : t = "" <;> simp [hj, h]
        · cases ht : σ STORAGE_KEYS.authToken with
          | none => simp [hj]
          | some t => by_cases h : t = "" <;> simp [hj, h]
  · intro hne
    unfold startupRequests requestMentions Request.target Request.args
    cases ht : σ STORAGE_KEYS.authToken with
    | none => simp
    | some t =>
        rw [ht] at hne
        have htne : t ≠ "common_configurations.api.auth.get_csrf_token" := by
          intro h; exact hne (by rw [h])
        simp [Option.getD]
        exact fun h => htne h.symm

/-- C7 witness: the amended statement applied to the concrete cached
session, with the no-token-mention hypothesis discharged. -/
theorem C7_session_restored_from_storage_witness :
    startupRequests.all
      (fun r => !(requestMentions r ((exampleStorage STORAGE_KEYS.authToken).getD ""))) = true :=
  (C7_session_restored_from_storage exampleDecoders exampleStorage).2.2 (by decide)

/-- C4. The registration branch of the OTP component emits
`registrationVerified` — completing the registration with the token and the
created user contact — exactly when the `verify_registration_otp` response
carries `success = true`, a truthy `auth_token`, and a `user_contact`; any
other response only shows the invalid-code error, leaving the user
unregistered. -/
theorem C4_registration_requires_full_verify_response :
    ∀ (r : RegistrationOTPVerifyResponse) (t : String) (c : UserContact),
      (handleRegistrationVerifyResponse r = .emitted t c ↔
        r.success = true ∧ r.auth_token = some t ∧ t ≠ "" ∧ r.user_contact = some c) ∧
      ((r.success = false ∨ r.auth_token = none ∨ r.auth_token = some "" ∨
          r.user_contact = none) →
        handleRegistrationVerifyResponse r = .errorShown invalidCodeMessage) := by
  rintro ⟨s, tok, uc⟩ t c
  cases s with
  | false =>
      cases tok <;> cases uc <;>
        exact ⟨by simp [handleRegistrationVerifyResponse], fun _ => rfl⟩
  | true =>
      cases tok with
      | none =>
          cases uc <;>
            exact ⟨by simp [handleRegistrationVerifyResponse], fun _ => rfl⟩
      | some t0 =>
          cases uc with
          | none =>
              exact ⟨by simp [handleRegistrationVerifyResponse], fun _ => rfl⟩
          | some c0 =>
              constructor
              · constructor
                · intro h
                  by_cases h0 : t0 = ""
                  · simp [handleRegistrationVerifyResponse, h0] at h
                  · simp [handleRegistrationVerifyResponse, h0] at h
                    exact ⟨rfl, by rw [h.1], h.1 ▸ h0, by rw [h.2]⟩
                · rintro ⟨-, h1, h2, h3⟩
                  injection h1 with h1
                  injection h3 with h3
                  subst h1
                  subst h3
                  simp [handleRegistrationVerifyResponse, h2]
              · intro h
                rcases h with h | h | h | h
                · exact absurd h (by simp)
                · exact absurd h (by simp)
                · injection h with h
                  subst h
                  simp [handleRegistrationVerifyResponse]
                · exact absurd h (by simp)

/-- C4 witness: a complete response completes the registration, a response
missing the token only shows the error. -/
theorem C4_registration_requires_full_verify_response_witness :
    handleRegistrationVerifyResponse
        { success := true, auth_token := some "tok-1", user_contact := some { name := "UC-001" } } =
      .emitted "tok-1" { name := "UC-001" } ∧
    handleRegistrationVerifyResponse
        { success := true, auth_token := none, user_contact := some { name := "UC-001" } } =
      .errorShown invalidCodeMessage :=
  ⟨((C4_registration_requires_full_verify_response
        { success := true, auth_token := some "tok-1", user_contact := some { name := "UC-001" } }
        "tok-1" { name := "UC-001" }).1).mpr ⟨rfl, rfl, by decide, rfl⟩,
   (C4_registration_requires_full_verify_response
        { success := true, auth_token := none, user_contact := some { name := "UC-001" } }
        "" { name := "" }).2 (Or.inr (Or.inl rfl))⟩

/-- A resend-less trace cannot shrink the cooldown counter by more than its
number of elapsed seconds. -/
theorem runOtp_cooldown_lower_bound :
    ∀ (evs : List OtpEvent) (s : OtpCompState),
      OtpEvent.sendSuccess ∉ evs →
      s.resendCooldown ≤ (runOtp s evs).resendCooldown + countTicks evs := by
  intro evs
  induction evs with
  | nil => intro s _; simp [runOtp, countTicks]
  | cons e rest ih =>
      intro s hnot
      have hne : OtpEvent.sendSuccess ∉ rest := fun h => hnot (List.mem_cons_of_mem _ h)
      cases e with
      | tick =>
          have hb := ih (stepOtp s OtpEvent.tick).1 hne
          have hticks : countTicks (OtpEvent.tick :: rest) = countTicks rest + 1 := rfl
          have hrun : runOtp s (OtpEvent.tick :: rest) =
              runOtp (stepOtp s OtpEvent.tick).1 rest := rfl
          rw [hrun, hticks]
          rcases Nat.eq_zero_or_pos s.resendCooldown with h0 | hpos
          · have hu : (stepOtp s OtpEvent.tick).1 = s := by
              simp [stepOtp, h0]
            rw [hu] at hb
            omega
          · have hu : (stepOtp s OtpEvent.tick).1.resendCooldown = s.resendCooldown - 1 := by
              simp [stepOtp, hpos]
            omega
      | sendSuccess => exact absurd (List.mem_cons_self _ _) hnot
      | resendClick =>
          have hb := ih (stepOtp s OtpEvent.resendClick).1 hne
          have hticks : countTicks (OtpEvent.resendClick :: rest) = countTicks rest := rfl
          have hrun : runOtp s (OtpEvent.resendClick :: rest) =
              runOtp (stepOtp s OtpEvent.resendClick).1 rest := rfl
          have hu : (stepOtp s OtpEvent.resendClick).1.resendCooldown = s.resendCooldown := by
            by_cases hpos : 0 < s.resendCooldown
            · simp [stepOtp, hpos]
            · simp [stepOtp, hpos]
          rw [hrun, hticks]
          omega

/-- C5. While the resend cooldown is positive, clicking resend issues no
request and leaves the component state untouched; every successful send
resets the counter to exactly 60; and once a send succeeded, a resend click
can only issue a request after at least 60 elapsed seconds (ticks) with no
intervening send. -/
theorem C5_resend_cooldown :
    ∀ s : OtpCompState,
      (0 < s.resendCooldown → stepOtp s .resendClick = (s, [])) ∧
      (stepOtp s .sendSuccess).1.resendCooldown = 60 ∧
      (∀ evs : List OtpEvent, OtpEvent.sendSuccess ∉ evs →
        (stepOtp (runOtp (stepOtp s .sendSuccess).1 evs) .resendClick).2 ≠ [] →
        60 ≤ countTicks evs) := by
  intro s
  refine ⟨?_, rfl, ?_⟩
  · intro h
    simp [stepOtp, h]
  · intro evs hnot hfires
    set s2 := runOtp (stepOtp s .sendSuccess).1 evs with hs2
    have hzero : s2.resendCooldown = 0 := by
      by_contra hpos
      have : 0 < s2.resendCooldown := Nat.pos_of_ne_zero hpos
      simp [stepOtp, this] at hfires
    have hb := runOtp_cooldown_lower_bound evs (stepOtp s .sendSuccess).1 hnot
    have h60 : (stepOtp s .sendSuccess).1.resendCooldown = 60 := rfl
    rw [h60, ← hs2, hzero] at hb
    omega

/-- Inserting a slot into the availability map preserves a pointwise
property of the grouped slots. -/
theorem addToMap_forall {P : AvailableSlot → Prop} :
    ∀ (m : AvailMap) (d : String) (s : AvailableSlot),
      (∀ q ∈ m, ∀ x ∈ q.2, P x) → P s → ∀ q ∈ addToMap m d s, ∀ x ∈ q.2, P x := by
  intro m
  induction m with
  | nil =>
      intro d s _ hs q hq x hx
      simp [addToMap] at hq
      subst hq
      simp at hx
      subst hx
      exact hs
  | cons p rest ih =>
      intro d s hm hs q hq x hx
      obtain ⟨k, l⟩ := p
      by_cases hk : k = d
      · simp only [addToMap, if_pos hk] at hq
        rcases List.mem_cons.mp hq with hq | hq
        · subst hq
          rcases List.mem_append.mp hx with hx | hx
          · exact hm (k, l) (List.mem_cons_self _ _) x hx
          · simp at hx
            subst hx
            exact hs
        · exact hm q (List.mem_cons_of_mem _ hq) x hx
      · simp only [addToMap, if_neg hk] at hq
        rcases List.mem_cons.mp hq with hq | hq
        · subst hq
          exact hm (k, l) (List.mem_cons_self _ _) x hx
        · exact ih d s (fun q hq => hm q (List.mem_cons_of_mem _ hq)) hs q hq x hx

/-- Folding slots into the availability map preserves a pointwise property
held by the slots and the accumulator. -/
theorem foldl_addToMap_forall {P : AvailableSlot → Prop} :
    ∀ (slots : List AvailableSlot) (m : AvailMap),
      (∀ q ∈ m, ∀ x ∈ q.2, P x) → (∀ x ∈ slots, P x) →
      ∀ q ∈ slots.foldl (fun acc s => addToMap acc (dateOf s) s) m, ∀ x ∈ q.2, P x := by
  intro slots
  induction slots with
  | nil => intro m hm _ q hq; exact hm q hq
  | cons s rest ih =>
      intro m hm hslots q hq x hx
      have hm' := addToMap_forall m (dateOf s) s hm (hslots s (List.mem_cons_self _ _))
      exact ih (addToMap m (dateOf s) s) hm'
        (fun y hy => hslots y (List.mem_cons_of_mem _ hy)) q hq x hx

/-- Every slot stored under any date of `groupSlots slots` comes with the
property all of `slots` have. -/
theorem groupSlots_forall {P : AvailableSlot → Prop} (slots : List AvailableSlot)
    (h : ∀ x ∈ slots, P x) : ∀ q ∈ groupSlots slots, ∀ x ∈ q.2, P x :=
  foldl_addToMap_forall slots [] (by simp) h

/-- A `mapLookup` result is one of the map's stored groups. -/
theorem mapLookup_forall {P : AvailableSlot → Prop} :
    ∀ (m : AvailMap) (d : String),
      (∀ q ∈ m, ∀ x ∈ q.2, P x) → ∀ x ∈ mapLookup m d, P x := by
  intro m
  induction m with
  | nil => intro d _ x hx; simp [mapLookup] at hx
  | cons p rest ih =>
      intro d hm x hx
      obtain ⟨k, l⟩ := p
      by_cases hk : k = d
      · simp only [mapLookup, if_pos hk] at hx
        exact hm (k, l) (List.mem_cons_self _ _) x hx
      · simp only [mapLookup, if_neg hk] at hx
        exact ih d (fun q hq => hm q (List.mem_cons_of_mem _ hq)) x hx

/-- One component event preserves the availability invariant. -/
theorem stepSched_preserves (s : SchedState) (e : SchedEvent)
    (h : SchedInv s) : SchedInv (stepSched s e) := by
  obtain ⟨hav, hmap, hsel⟩ := h
  cases e with
  | monthLoaded slots =>
      simp only [stepSched]
      exact ⟨hav,
        fun q hq x hx =>
          groupSlots_forall _ (fun y hy => (List.mem_filter.mp hy).2) q hq x hx,
        hsel⟩
  | daySlotsLoaded slots =>
      simp only [stepSched]
      exact ⟨fun x hx => (List.mem_filter.mp hx).2, hmap, hsel⟩
  | dateSelected d =>
      simp only [stepSched]
      exact ⟨hav, hmap, fun x hx => by simp at hx⟩
  | daySelected d isCurrentMonth isPast hasAvailability =>
      simp only [stepSched]
      split
      · exact ⟨hav, hmap, hsel⟩
      · exact ⟨fun x hx => mapLookup_forall s.availabilityMap d hmap x hx, hmap,
          fun x hx => by simp at hx⟩
  | slotClicked i =>
      simp only [stepSched]
      cases hi : s.availableSlots[i]? with
      | none => exact ⟨hav, hmap, hsel⟩
      | some slot =>
          refine ⟨hav, hmap, fun x hx => ?_⟩
          have hx2 : slot = x := by simpa using hx
          subst hx2
          exact hav slot (List.getElem?_mem hi)
  | selectionCleared =>
      simp only [stepSched]
      exact ⟨fun x hx => by simp at hx, hmap, fun x hx => by simp at hx⟩
  | bookSucceeded =>
      simp only [stepSched]
      exact ⟨fun x hx => by simp at hx, hmap, fun x hx => by simp at hx⟩

/-- C9. In every state reachable by the scheduling tool component, all
slots held in `availableSlots`, all slots stored in the per-day
`availabilityMap`, and any selected slot have `is_available = true`: the
component filters unavailable slots out on load, so `bookAppointment` is
only ever invoked with a slot that was reported available. -/
theorem C9_slots_available_invariant :
    ∀ evs : List SchedEvent, SchedInv (runSched evs) := by
  have hfold : ∀ (evs : List SchedEvent) (s : SchedState),
      SchedInv s → SchedInv (evs.foldl stepSched s) := by
    intro evs
    induction evs with
    | nil => intro s hs; exact hs
    | cons e rest ih =>
        intro s hs
        exact ih (stepSched s e) (stepSched_preserves s e hs)
  intro evs
  exact hfold evs initSched ⟨by simp [initSched], by simp [initSched], by simp [initSched]⟩

/-- C9 witness: after loading a day's slots and clicking the first one, the
selected slot that `bookAppointment` would send was reported available. -/
theorem C9_slots_available_invariant_witness :
    exampleSlot.is_available = true :=
  (C9_slots_available_invariant
      [SchedEvent.daySlotsLoaded [exampleSlot], SchedEvent.slotClicked 0]).2.2
    exampleSlot (by decide)

/-- C3. For an appointment its owner cancels: a `Draft` is hard-deleted
(no record with its id remains), a `Confirmed` one is kept with its status
set to `Cancelled`, and an already-cancelled one yields a no-op success on
the unchanged store; in each case the result names the action taken and
carries a user-facing message. -/
theorem C3_cancelOrDelete_by_status :
    ∀ (store : List SpecAppointment) (apptId byId : String) (a : SpecAppointment),
      store.find? (fun b => b.id == apptId) = some a →
      a.identityId = byId →
      ((a.status = .draft →
         ∃ res st2, cancelOrDelete store apptId byId = .ok (res, st2) ∧
           res.action = "deleted" ∧ res.message ≠ "" ∧ ∀ b ∈ st2, b.id ≠ apptId) ∧
       (a.status = .confirmed →
         ∃ res st2, cancelOrDelete store apptId byId = .ok (res, st2) ∧
           res.action = "cancelled" ∧ res.message ≠ "" ∧
           st2.length = store.length ∧
           ∃ b ∈ st2, b.id = apptId ∧ b.status = .cancelled) ∧
       (a.status = .cancelled →
         ∃ res, cancelOrDelete store apptId byId = .ok (res, store) ∧
           res.action = "none" ∧ res.message ≠ "")) := by
  intro store apptId byId a hfind hown
  have haid : a.id = apptId := by
    have hp := List.find?_some hfind
    simpa using hp
  have hmem : a ∈ store := List.mem_of_find?_eq_some hfind
  have hnot : ¬(a.identityId ≠ byId) := fun hne => hne hown
  refine ⟨?_, ?_, ?_⟩ <;> intro hst
  · refine ⟨{ action := "deleted", message := "La cita fue eliminada." },
      store.filter (fun b => decide (b.id ≠ apptId)),
      ?_, rfl, by decide, ?_⟩
    · unfold cancelOrDelete
      rw [hfind]
      simp only [if_neg hnot, hst]
    · intro b hb
      exact of_decide_eq_true (List.mem_filter.mp hb).2
  · refine ⟨{ action := "cancelled", message := "La cita fue cancelada." },
      store.map (fun b => if b.id = apptId then { b with status := .cancelled } else b),
      ?_, rfl, by decide, by simp, ?_⟩
    · unfold cancelOrDelete
      rw [hfind]
      simp only [if_neg hnot, hst]
    · refine ⟨{ a with status := .cancelled },
        List.mem_map.mpr ⟨a, hmem, by simp [haid]⟩, by simpa using haid, rfl⟩
  · refine ⟨{ action := "none", message := "La cita ya estaba cancelada." }, ?_, rfl, by decide⟩
    unfold cancelOrDelete
    rw [hfind]
    simp only [if_neg hnot, hst]

/-- A draft appointment owned by `UC-001`. -/
def apptDraft : SpecAppointment :=
  { id := "APT-1", identityId := "UC-001", startT := 540, endT := 570,
    status := .draft, draftExpiresAt := 600 }

/-- A confirmed appointment owned by `UC-001`. -/
def apptConfirmed : SpecAppointment :=
  { id := "APT-2", identityId := "UC-001", startT := 540, endT := 570,
    status := .confirmed, draftExpiresAt := 0 }

/-- A cancelled appointment owned by `UC-001`. -/
def apptCancelled : SpecAppointment :=
  { id := "APT-3", identityId := "UC-001", startT := 540, endT := 570,
    status := .cancelled, draftExpiresAt := 0 }

/-- C3 witness: the three cases evaluated on a concrete store owned by the
caller — the draft appointment is deleted, the confirmed one is kept as
cancelled, the cancelled one is a no-op success. -/
theorem C3_cancelOrDelete_by_status_witness :
    (∃ res st2,
      cancelOrDelete [apptDraft] "APT-1" "UC-001" = .ok (res, st2) ∧
      res.action = "deleted" ∧ res.message ≠ "" ∧ ∀ b ∈ st2, b.id ≠ "APT-1") ∧
    (∃ res st2,
      cancelOrDelete [apptConfirmed] "APT-2" "UC-001" = .ok (res, st2) ∧
      res.action = "cancelled" ∧ res.message ≠ "" ∧
      st2.length = [apptConfirmed].length ∧
      ∃ b ∈ st2, b.id = "APT-2" ∧ b.status = .cancelled) ∧
    (∃ res,
      cancelOrDelete [apptCancelled] "APT-3" "UC-001" = .ok (res, [apptCancelled]) ∧
      res.action = "none" ∧ res.message ≠ "") :=
  ⟨(C3_cancelOrDelete_by_status [apptDraft] "APT-1" "UC-001" apptDraft
      (by decide) (by decide)).1 (by decide),
   (C3_cancelOrDelete_by_status [apptConfirmed] "APT-2" "UC-001" apptConfirmed
      (by decide) (by decide)).2.1 (by decide),
   (C3_cancelOrDelete_by_status [apptCancelled] "APT-3" "UC-001" apptCancelled
      (by decide) (by decide)).2.2 (by decide)⟩

/-- Unpack a candidate-window triple. -/
theorem isCandidate_elim {r : CalendarResourceSpec} {i day k : Nat}
    (h : IsCandidate r i day k) :
    ∃ ws, r.plan.slots[i]? = some ws ∧ ws.weekday = day % 7 ∧
      ws.startTime + (k + 1) * r.slotDurationMinutes ≤ ws.endTime := by
  unfold IsCandidate at h
  cases hs : r.plan.slots[i]? with
  | none => rw [hs] at h; exact h.elim
  | some ws => rw [hs] at h; exact ⟨ws, rfl, h⟩

/-- Distinct candidate windows of a well-formed plan are disjoint
intervals: windows of different days are separated by the day boundary,
windows of different weekly slots on the same weekday by the plan's
non-overlap invariant, and windows of the same weekly slot by the
fixed-width grid. -/
theorem candWindows_disjoint (r : CalendarResourceSpec) (hwf : PlanWF r.plan) :
    ∀ i day k i2 day2 k2, IsCandidate r i day k → IsCandidate r i2 day2 k2 →
      ¬(i = i2 ∧ day = day2 ∧ k = k2) →
      (candWindow r i day k).2 ≤ (candWindow r i2 day2 k2).1 ∨
      (candWindow r i2 day2 k2).2 ≤ (candWindow r i day k).1 := by
  intro i day k i2 day2 k2 hc hc2 hne
  obtain ⟨ws, hws, hwd, hfit⟩ := isCandidate_elim hc
  obtain ⟨ws2, hws2, hwd2, hfit2⟩ := isCandidate_elim hc2
  obtain ⟨hse, he1440, -⟩ := hwf.1 ws (List.getElem?_mem hws)
  obtain ⟨hse2, he1440b, -⟩ := hwf.1 ws2 (List.getElem?_mem hws2)
  simp only [candWindow, hws, hws2]
  rcases Nat.lt_trichotomy day day2 with hd | hd | hd
  · left
    have h1 : ws.startTime + (k + 1) * r.slotDurationMinutes ≤ 1440 :=
      le_trans hfit he1440
    omega
  · subst hd
    obtain ⟨hlen, hget⟩ := List.getElem?_eq_some.mp hws
    obtain ⟨hlen2, hget2⟩ := List.getElem?_eq_some.mp hws2
    have hwdeq : ws.weekday = ws2.weekday := by rw [hwd, hwd2]
    rcases Nat.lt_trichotomy i i2 with hi | hi | hi
    · have hR := (List.pairwise_iff_getElem.mp hwf.2) i i2 hlen hlen2 hi
      rw [hget, hget2] at hR
      rcases hR hwdeq with hdj | hdj
      · left; omega
      · right; omega
    · subst hi
      have hwseq : ws = ws2 := by
        rw [hws] at hws2
        exact Option.some.inj hws2
      subst hwseq
      rcases Nat.lt_trichotomy k k2 with hk | hk | hk
      · left
        have hmul : (k + 1) * r.slotDurationMinutes ≤ k2 * r.slotDurationMinutes :=
          Nat.mul_le_mul_right _ hk
        omega
      · exact absurd ⟨rfl, rfl, hk⟩ hne
      · right
        have hmul : (k2 + 1) * r.slotDurationMinutes ≤ k * r.slotDurationMinutes :=
          Nat.mul_le_mul_right _ hk
        omega
    · have hR := (List.pairwise_iff_getElem.mp hwf.2) i2 i hlen2 hlen hi
      rw [hget, hget2] at hR
      rcases hR hwdeq.symm with hdj | hdj
      · right; omega
      · left; omega
  · right
    have h1 : ws2.startTime + (k2 + 1) * r.slotDurationMinutes ≤ 1440 :=
      le_trans hfit2 he1440b
    omega

/-- A successful `matchSlot` identifies a candidate window equal to the
requested fixed-duration interval, governed by the matched weekly slot. -/
theorem matchSlot_spec (r : CalendarResourceSpec)
    {startT : Nat} {ws : WeeklySlot} (h : matchSlot r startT = some ws) :
    ∃ i k, r.plan.slots[i]? = some ws ∧
      IsCandidate r i (startT / 1440) k ∧
      (candWindow r i (startT / 1440) k).1 = startT ∧
      (candWindow r i (startT / 1440) k).2 = startT + r.slotDurationMinutes := by
  unfold matchSlot at h
  have hp := List.find?_some h
  have hmem := List.mem_of_find?_eq_some h
  obtain ⟨i, hlen, hget⟩ := List.getElem_of_mem hmem
  have hws : r.plan.slots[i]? = some ws := List.getElem?_eq_some.mpr ⟨hlen, hget⟩
  simp only [Bool.and_eq_true, beq_iff_eq, decide_eq_true_eq] at hp
  obtain ⟨⟨⟨hwd, hle⟩, hmod⟩, hfit⟩ := hp
  have hk : (startT % 1440 - ws.startTime) / r.slotDurationMinutes * r.slotDurationMinutes =
      startT % 1440 - ws.startTime :=
    Nat.div_mul_cancel (Nat.dvd_of_mod_eq_zero hmod)
  have hsucc : ((startT % 1440 - ws.startTime) / r.slotDurationMinutes + 1) *
        r.slotDurationMinutes =
      (startT % 1440 - ws.startTime) / r.slotDurationMinutes * r.slotDurationMinutes +
        r.slotDurationMinutes :=
    Nat.succ_mul _ _
  refine ⟨i, (startT % 1440 - ws.startTime) / r.slotDurationMinutes, hws, ?_, ?_, ?_⟩
  · unfold IsCandidate
    rw [hws]
    exact ⟨hwd, by omega⟩
  · simp only [candWindow, hws]
    omega
  · simp only [candWindow, hws]
    omega

/-- Prepending an appointment adds its overlap indicator to the booking
count. -/
theorem bookedCount_cons (a : SpecAppointment) (st : List SpecAppointment)
    (now lo hi : Nat) :
    bookedCount (a :: st) now lo hi =
      bookedCount st now lo hi +
        (if activeAt now a && overlapsWindow a lo hi then 1 else 0) := by
  by_cases h : (activeAt now a && overlapsWindow a lo hi) = true
  · simp [bookedCount, List.filter_cons, h]
  · simp [bookedCount, List.filter_cons, h]

/-- On a store of confirmed appointments the booking count does not depend
on the evaluation instant. -/
theorem bookedCount_time_invariant {st : List SpecAppointment}
    (hconf : ∀ a ∈ st, a.status = .confirmed) (n1 n2 lo hi : Nat) :
    bookedCount st n1 lo hi = bookedCount st n2 lo hi := by
  unfold bookedCount
  congr 1
  apply List.filter_congr
  intro a ha
  have hs := hconf a ha
  simp [activeAt, hs]

/-- The booking-engine invariant: every stored appointment is confirmed
(the engine inserts directly as `Confirmed`), and no candidate window holds
more capacity-consuming appointments than its weekly slot allows. -/
def EngineInv (r : CalendarResourceSpec) (st : List SpecAppointment) : Prop :=
  (∀ a ∈ st, a.status = .confirmed) ∧
  ∀ i day k, IsCandidate r i day k → ∀ now : Nat,
    bookedCount st now (candWindow r i day k).1 (candWindow r i day k).2 ≤
      candCapacity r i

/-- What a successful `createAndConfirm` guarantees: the window matched a
weekly slot with spare capacity and the confirmed appointment was
prepended. -/
theorem createAndConfirm_ok_spec (r : CalendarResourceSpec)
    (st : List SpecAppointment) (q : BookingRequest) {appt : SpecAppointment}
    {st2 : List SpecAppointment}
    (hres : createAndConfirm r st q = .ok (appt, st2)) :
    ∃ ws, matchSlot r q.startT = some ws ∧
      q.endT = q.startT + r.slotDurationMinutes ∧
      bookedCount st q.now q.startT q.endT < ws.capacity ∧
      appt = confirmedAppt q ∧
      st2 = appt :: st := by
  rw [createAndConfirm] at hres
  split at hres
  · exact absurd hres (by simp)
  split at hres
  · exact absurd hres (by simp)
  split at hres
  · exact absurd hres (by simp)
  split at hres
  · exact absurd hres (by simp)
  rename_i hact hfut hlt hdeq
  split at hres
  · exact absurd hres (by simp)
  rename_i ws hms
  split at hres
  · rename_i hcap
    have hpair := Except.ok.inj hres
    have happt : appt = confirmedAppt q := congrArg Prod.fst hpair.symm
    refine ⟨ws, hms, not_ne_iff.mp hdeq, hcap, happt, ?_⟩
    have hst2 : st2 = confirmedAppt q :: st := congrArg Prod.snd hpair.symm
    rw [hst2, happt]
  · exact absurd hres (by simp)

/-- One `createAndConfirm` call — successful or not — preserves the
booking-engine invariant: the capacity guard recomputed inside the call
protects exactly the one candidate window the insert overlaps, and every
other candidate window is disjoint from it. -/
theorem createAndConfirm_preserves (r : CalendarResourceSpec) (hwf : PlanWF r.plan)
    (st : List SpecAppointment) (q : BookingRequest) (hI : EngineInv r st) :
    EngineInv r (match createAndConfirm r st q with
                 | .ok p => p.2
                 | .error _ => st) := by
  cases hres : createAndConfirm r st q with
  | error e => exact hI
  | ok p =>
      obtain ⟨appt, st2⟩ := p
      obtain ⟨ws, hms, hEq, hcap, happt, hst2⟩ := createAndConfirm_ok_spec r st q hres
      show EngineInv r st2
      rw [hst2]
      have has : appt.startT = q.startT := by rw [happt]; rfl
      have hae : appt.endT = q.endT := by rw [happt]; rfl
      have hstat : appt.status = ApptStatus.confirmed := by rw [happt]; rfl
      obtain ⟨j, kk, hwsj, hcandj, hlo, hhi⟩ := matchSlot_spec r hms
      constructor
      · intro a ha
        rcases List.mem_cons.mp ha with ha | ha
        · rw [ha, hstat]
        · exact hI.1 a ha
      · intro i day k hc now
        rw [bookedCount_cons]
        by_cases hsame : i = j ∧ day = q.startT / 1440 ∧ k = kk
        · obtain ⟨rfl, rfl, rfl⟩ := hsame
          have hcapEq : candCapacity r i = ws.capacity := by
            unfold candCapacity
            rw [hwsj]
          have hcnt : bookedCount st now (candWindow r i (q.startT / 1440) k).1
              (candWindow r i (q.startT / 1440) k).2 =
              bookedCount st q.now q.startT q.endT := by
            rw [hlo, hhi, ← hEq]
            exact bookedCount_time_invariant hI.1 now q.now _ _
          have hind : (if activeAt now appt &&
              overlapsWindow appt (candWindow r i (q.startT / 1440) k).1
                (candWindow r i (q.startT / 1440) k).2 then 1 else 0) ≤ 1 := by
            split <;> omega
          rw [hcnt, hcapEq]
          omega
        · have hdisj := candWindows_disjoint r hwf i day k j (q.startT / 1440) kk
            hc hcandj hsame
          have hov : overlapsWindow appt (candWindow r i day k).1
              (candWindow r i day k).2 = false := by
            unfold overlapsWindow
            rw [has, hae]
            rcases hdisj with hdj | hdj
            · have hx : ¬ q.startT < (candWindow r i day k).2 := by omega
              simp [hx]
            · have hx : ¬ (candWindow r i day k).1 < q.endT := by omega
              simp [hx]
          rw [hov]
          simp only [Bool.and_false, if_false, Nat.add_zero]
          exact hI.2 i day k hc now

/-- Any request sequence preserves the booking-engine invariant. -/
theorem runBookings_inv (r : CalendarResourceSpec) (hwf : PlanWF r.plan) :
    ∀ (reqs : List BookingRequest) (st : List SpecAppointment),
      EngineInv r st → EngineInv r (runBookings r st reqs) := by
  intro reqs
  induction reqs with
  | nil => intro st h; exact h
  | cons q rest ih =>
      intro st h
      have hstep := createAndConfirm_preserves r hwf st q h
      have hunf : runBookings r st (q :: rest) =
          runBookings r (match createAndConfirm r st q with
                         | .ok p => p.2
                         | .error _ => st) rest := by
        unfold runBookings
        rw [List.foldl_cons]
        rcases createAndConfirm r st q with e | p
        · rfl
        · rfl
      rw [hunf]
      exact ih _ hstep

/-- C1. After any sequence of `createAndConfirm` calls on an initially
empty store — concurrent calls are serialized by the §5 transaction/lock,
so an interleaving is such a sequence — the number of capacity-consuming
(Confirmed or unexpired-Draft) appointments overlapping any candidate slot
window never exceeds that weekly slot's capacity; and the client's
`createAndConfirmAppointment` carries the booking as the single
`create_and_confirm_appointment` RPC. -/
theorem C1_capacity_never_exceeded :
    ∀ r : CalendarResourceSpec, PlanWF r.plan →
      ∀ (reqs : List BookingRequest) (i day k : Nat), IsCandidate r i day k →
        ∀ now : Nat,
          bookedCount (runBookings r [] reqs) now
              (candWindow r i day k).1 (candWindow r i day k).2 ≤ candCapacity r i ∧
          ∀ (resource contactName : String) (slot : AvailableSlot),
            (bookAppointmentTrace resource contactName slot).length = 1 ∧
            (bookAppointmentTrace resource contactName slot).all
              isCreateAndConfirmRpc = true := by
  intro r hwf reqs i day k hc now
  refine ⟨?_, fun resource contactName slot => ⟨rfl, rfl⟩⟩
  have hinv := runBookings_inv r hwf reqs []
    ⟨by simp, fun i day k _ now => by simp [bookedCount]⟩
  exact hinv.2 i day k hc now

/-- A resource with one weekly slot: weekday 1, 09:00–12:00, capacity 1,
30-minute slots. -/
def exampleResource : CalendarResourceSpec :=
  { active := true
    slotDurationMinutes := 30
    plan := { slots := [{ weekday := 1, startTime := 540, endTime := 720, capacity := 1 }] } }

/-- Two bookings racing for the 09:00–09:30 window of day 8 (a weekday-1
day): the second must fail on capacity. -/
def exampleBookings : List BookingRequest :=
  [{ id := "APT-A", identityId := "UC-001", startT := 12060, endT := 12090, now := 100 },
   { id := "APT-B", identityId := "UC-002", startT := 12060, endT := 12090, now := 101 }]

/-- The example plan satisfies the §3 invariants. -/
theorem exampleResource_wf : PlanWF exampleResource.plan :=
  ⟨by decide, List.Pairwise.cons (fun b hb => absurd hb (by simp)) List.Pairwise.nil⟩

/-- The 09:00–09:30 window of day 8 is a candidate window of the example
plan. -/
theorem exampleResource_candidate : IsCandidate exampleResource 0 8 0 :=
  ⟨by decide, by decide⟩

/-- C1 witness: the invariant instantiated at the concrete plan, the
09:00–09:30 candidate window of day 8, and the two competing bookings. -/
theorem C1_capacity_never_exceeded_witness :
    PlanWF exampleResource.plan ∧
    IsCandidate exampleResource 0 8 0 ∧
    bookedCount (runBookings exampleResource [] exampleBookings) 200
        (candWindow exampleResource 0 8 0).1 (candWindow exampleResource 0 8 0).2 ≤
      candCapacity exampleResource 0 :=
  ⟨exampleResource_wf, exampleResource_candidate,
   (C1_capacity_never_exceeded exampleResource exampleResource_wf exampleBookings 0 8 0
      exampleResource_candidate 200).1⟩

set_option maxRecDepth 4000 in
/-- C5 witness: a blocked resend during cooldown, the 60-second reset, and
the 60-tick bound at a concrete trace. -/
theorem C5_resend_cooldown_witness :
    stepOtp exampleOtpState .resendClick = (exampleOtpState, []) ∧
    (stepOtp exampleOtpState .sendSuccess).1.resendCooldown = 60 ∧
    60 ≤ countTicks (List.replicate 60 OtpEvent.tick) :=
  ⟨(C5_resend_cooldown exampleOtpState).1 (by decide),
   (C5_resend_cooldown exampleOtpState).2.1,
   (C5_resend_cooldown exampleOtpState).2.2 (List.replicate 60 OtpEvent.tick)
     (by decide) (by decide)⟩

end ServicePortal
